import Mathlib

/-
Verification of the target lookup and imputation mechanism of
`baybe/simulation/lookup.py`.

The embedding models a pandas cell as a `Value` (a number, a missing
value `nan`, or — in one degenerate code path — an empty Python tuple
stored as a cell object).  A dataframe row is an association list from
column names to values; a dataframe is a list of rows, indexed by
position (the default RangeIndex of the source).  All exceptions raised
by the source are modelled by the `Except` monad: since every raise in
`_lookup_targets_from_dataframe` happens inside the per-row loop, before
the single bulk write `queries.loc[:, target_names] = ...` at line 121,
and the raise in `_lookup_targets_from_callable` happens before the
write loop at lines 79-80, an in-place call that raises leaves `queries`
untouched, which the functional `Except.error` result mirrors exactly.
-/

namespace Baybe

/-- A pandas dataframe cell: a numeric value, a missing value (NaN), or the
empty Python tuple (which `_lookup_targets_from_callable` stores into the
target column when the lookup callable returns zero values per row, since
the tuple column `0` of `measured_targets` is then never overwritten). -/
inductive Value
  | nan
  | num (q : ℚ)
  | emptyTup
deriving DecidableEq

/-- A dataframe row: an association list from column names to cell values. -/
abbrev Row := List (String × Value)

/-- Reading a cell of a row by column name; `nan` for an absent column.
(The source assumes the needed columns exist — pandas raises a `KeyError`
otherwise; all claims below concern inputs where the columns are present.) -/
def getCell (r : Row) (c : String) : Value :=
  match r.find? (fun p => p.1 == c) with
  | some p => p.2
  | none => Value.nan

/-- Missing-value-aware cell equality, as produced by the pandas comparison
`lookup.loc[:, row.index] == row` at lookup.py line 89: two numbers compare
numerically, and any comparison involving NaN is `False` (in particular
NaN == NaN is `False`). -/
def valueEq : Value → Value → Bool
  | Value.num a, Value.num b => a == b
  | _, _ => false

/-- Whether a single reference-table row matches the query row on every query
column: `(lookup.loc[:, row.index] == row).all(axis=1, skipna=False)` at
lookup.py lines 88-90. -/
def rowMatches (q : Row) (t : Row) : Bool :=
  q.all (fun p => valueEq (getCell t p.1) p.2)

/-- The `ind` of lookup.py lines 88-90: the (positional) indices of all
reference-table rows matching the query row. -/
def matchingIndices (q : Row) (lookup : List Row) : List Nat :=
  (List.range lookup.length).filter (fun i => rowMatches q (lookup.getD i []))

/-- Reading a cell of the reference table by row position and column name. -/
def dfCell (lookup : List Row) (i : Nat) (c : String) : Value :=
  getCell (lookup.getD i []) c

/-- The mode of a BayBE target (`baybe.targets.TargetMode`). -/
inductive TargetMode
  | MAX
  | MIN
  | MATCH
deriving DecidableEq

/-- A BayBE numerical target: its name, its mode, and the center of its
bounds interval (`target.bounds.center`, consulted by `_impute_lookup`
only in the `MATCH` branches). -/
structure Target where
  name : String
  mode : TargetMode
  center : ℚ

/-- The exceptions the source can raise, one constructor per raise site:
`configError` is the `AssertionError` of `_lookup_targets_from_callable`
(lookup.py line 74; the spec names it ConfigurationError), `invariantError`
is the `AssertionError` for `impute_mode == "ignore"` (line 107; spec name
InvariantViolation), `missError` is the `IndexError` of the final `else` of
`_impute_lookup` (line 194; spec name LookupMissError), `keyError` is the
`KeyError`/`AttributeError` produced by the malformed indexing of the
best/worst `MATCH` branches (see `bestWorstVal`), and `valueError` is the
`ValueError` of `idxmin`/`idxmax` or `np.random.choice` on an empty table. -/
inductive LookupErr
  | configError
  | invariantError
  | missError
  | keyError
  | valueError
deriving DecidableEq

/-- Numeric content of a cell, if any. -/
def toNum : Value → Option ℚ
  | Value.num q => some q
  | _ => none

/-- The numeric (non-missing) values of a reference-table column, in table
order; pandas reductions (`mean`, `min`, `max`) skip NaN cells. -/
def colVals (lookup : List Row) (c : String) : List ℚ :=
  (lookup.map (fun r => getCell r c)).filterMap toNum

/-- Column mean as computed by `lookup.loc[:, target_names].mean(axis=0)`
at lookup.py line 152: the NaN-skipping mean, NaN when no value remains. -/
def colMean (lookup : List Row) (c : String) : Value :=
  match colVals lookup c with
  | [] => Value.nan
  | x :: xs => Value.num ((x :: xs).sum / (x :: xs).length)

/-- Column minimum (`Series.min()`): NaN-skipping, NaN when empty. -/
def colMin (lookup : List Row) (c : String) : Value :=
  match colVals lookup c with
  | [] => Value.nan
  | x :: xs => Value.num (xs.foldl min x)

/-- Column maximum (`Series.max()`): NaN-skipping, NaN when empty. -/
def colMax (lookup : List Row) (c : String) : Value :=
  match colVals lookup c with
  | [] => Value.nan
  | x :: xs => Value.num (xs.foldl max x)

/-- One target's value in the `worst` (`worst = true`) or `best` branch of
`_impute_lookup` (lookup.py lines 153-186).  For `MAX` and `MIN` targets the
source takes the column min/max.  For a `MATCH` target the source evaluates
`lookup.loc[lookup.loc[(lookup[name] - center).abs().idxmin(),], name]
.flatten()[0]` (resp. `idxmax` for worst): the inner `lookup.loc[label,]`
returns the selected table row as a Series, and the outer `lookup.loc`
then uses that row's cell values as row labels, which raises a `KeyError`
whenever any of them is not a valid index label (and even if all of them
were, the result would be a Series, which has no `.flatten`, raising an
`AttributeError`); on an empty table, `idxmin`/`idxmax` already raises a
`ValueError`.  The `MATCH` branch therefore always raises. -/
def bestWorstVal (lookup : List Row) (t : Target) (worst : Bool) :
    Except LookupErr Value :=
  match t.mode with
  | TargetMode.MAX =>
      Except.ok (if worst then colMin lookup t.name else colMax lookup t.name)
  | TargetMode.MIN =>
      Except.ok (if worst then colMax lookup t.name else colMin lookup t.name)
  | TargetMode.MATCH =>
      if lookup.isEmpty then Except.error LookupErr.valueError
      else Except.error LookupErr.keyError

/-- The per-target loop of the `worst`/`best` branches of `_impute_lookup`:
values are collected in target order and the first raising target aborts. -/
def bestWorstVals (lookup : List Row) (worst : Bool) :
    List Target → Except LookupErr (List Value)
  | [] => Except.ok []
  | t :: ts =>
    match bestWorstVal lookup t worst with
    | Except.error e => Except.error e
    | Except.ok v =>
      match bestWorstVals lookup worst ts with
      | Except.error e => Except.error e
      | Except.ok vs => Except.ok (v :: vs)

/-- The `_impute_lookup` function (lookup.py lines 124-199).  `row` is used
by the source only inside the error message of the final `else`; `rnd` is
the draw of `np.random.choice(lookup.index)` in the `random` branch,
modelled as an arbitrary natural reduced modulo the table length (on an
empty table `np.random.choice` raises a `ValueError`).  Any mode other than
`mean`, `worst`, `best`, `random` — including `"error"` and every
unrecognized string — falls into the final `else`, the `IndexError` raise
(`missError`). -/
def imputeLookup (row : Row) (lookup : List Row) (targets : List Target)
    (mode : String) (rnd : Nat) : Except LookupErr (List Value) :=
  if mode = "mean" then
    Except.ok (targets.map (fun t => colMean lookup t.name))
  else if mode = "worst" then
    bestWorstVals lookup true targets
  else if mode = "best" then
    bestWorstVals lookup false targets
  else if mode = "random" then
    if lookup.isEmpty then Except.error LookupErr.valueError
    else Except.ok (targets.map (fun t => dfCell lookup (rnd % lookup.length) t.name))
  else Except.error LookupErr.missError

/-- The per-row body of the loop of `_lookup_targets_from_dataframe`
(lookup.py lines 86-119), producing this row's `match_vals`.  More than one
match: a warning is emitted (a non-fatal side effect, not modelled) and
`np.random.choice(ind)` picks one match, modelled by the arbitrary draw
`rnd` reduced modulo the number of matches.  No match: `impute_mode ==
"ignore"` raises the `AssertionError` of line 107 (`invariantError`),
otherwise `_impute_lookup` decides.  Exactly one match: that row's target
values are copied. -/
def rowMatchVals (row : Row) (targets : List Target) (lookup : List Row)
    (impute_mode : String) (rnd : Nat) : Except LookupErr (List Value) :=
  let target_names := targets.map Target.name
  let ind := matchingIndices row lookup
  if 1 < ind.length then
    Except.ok (target_names.map (dfCell lookup (ind.getD (rnd % ind.length) 0)))
  else if ind.length < 1 then
    if impute_mode = "ignore" then Except.error LookupErr.invariantError
    else imputeLookup row lookup targets impute_mode rnd
  else
    Except.ok (target_names.map (dfCell lookup (ind.getD 0 0)))

/-- The row loop of `_lookup_targets_from_dataframe` collecting
`all_match_vals`; `rand i` is the random draw used for row `i`.  The first
raising row aborts the whole call, before anything is written. -/
def resolveRows (targets : List Target) (lookup : List Row)
    (impute_mode : String) :
    (Nat → Nat) → List Row → Except LookupErr (List (List Value))
  | _, [] => Except.ok []
  | rand, row :: rest =>
    match rowMatchVals row targets lookup impute_mode (rand 0) with
    | Except.error e => Except.error e
    | Except.ok vs =>
      match resolveRows targets lookup impute_mode (fun n => rand (n + 1)) rest with
      | Except.error e => Except.error e
      | Except.ok others => Except.ok (vs :: others)

/-- Setting one cell of a row: an existing column is overwritten in place,
a new column is appended at the end (pandas column assignment). -/
def setCell (r : Row) (c : String) (v : Value) : Row :=
  if r.any (fun p => p.1 == c) then
    r.map (fun p => if p.1 == c then (p.1, v) else p)
  else r ++ [(c, v)]

/-- Writing the resolved values of one query row into its target columns:
the bulk write `queries.loc[:, target_names] = np.asarray(all_match_vals)`
of lookup.py line 121, restricted to one row. -/
def writeTargets (r : Row) (names : List String) (vals : List Value) : Row :=
  (names.zip vals).foldl (fun acc p => setCell acc p.1 p.2) r

/-- The `_lookup_targets_from_dataframe` function (lookup.py lines 83-121):
collect every row's `match_vals`, then write them all in one step. -/
def lookupTargetsFromDataframe (queries : List Row) (targets : List Target)
    (lookup : List Row) (impute_mode : String) (rand : Nat → Nat) :
    Except LookupErr (List Row) :=
  match resolveRows targets lookup impute_mode rand queries with
  | Except.error e => Except.error e
  | Except.ok allVals =>
      Except.ok ((queries.zip allVals).map (fun p =>
        writeTargets p.1 (targets.map Target.name) p.2))

/-- Padding a returned tuple to the width of the split frame:
`pd.DataFrame(measured_targets[0].to_list(), ...)` pads ragged tuples with
trailing NaN. -/
def padTo (w : Nat) (vs : List Value) : List Value :=
  vs ++ List.replicate (w - vs.length) Value.nan

/-- The `_lookup_targets_from_callable` function (lookup.py lines 59-80).
The callable receives the row's cell values positionally and its returned
tuple is stored per row; `k` is the width of the frame the tuples are split
into (the longest returned tuple).  `measured_targets` starts as the single
tuple column `0` and the split columns `0..k-1` overwrite/extend it, so its
final column count is `max k 1`: when every row returns the empty tuple
(`k = 0`) the split frame has no columns, the assignment is a no-op, and
column `0` still holds the raw empty tuples.  A column count different from
the number of targets raises the `AssertionError` of line 74
(`configError`), before the write loop of lines 79-80 writes anything. -/
def lookupTargetsFromCallable (queries : List Row) (targets : List Target)
    (f : List Value → List Value) : Except LookupErr (List Row) :=
  let results := queries.map (fun r => f (r.map Prod.snd))
  let k := results.foldl (fun m vs => max m vs.length) 0
  if max k 1 ≠ targets.length then Except.error LookupErr.configError
  else
    let table : List (List Value) :=
      if k = 0 then results.map (fun _ => [Value.emptyTup])
      else results.map (padTo k)
    Except.ok ((queries.zip table).map (fun p =>
      writeTargets p.1 (targets.map Target.name) p.2))

/-- The lookup source of `look_up_targets`: `None`, a callable, a pandas
DataFrame, or any other Python object (which matches none of the three
`if`/`elif` branches of lookup.py lines 45-56). -/
inductive LookupSource
  | none
  | callable (f : List Value → List Value)
  | table (df : List Row)
  | other

/-- The `look_up_targets` function (lookup.py lines 14-56).
`add_fake_results` is the external fake-result generator used when no
lookup is given (out of scope of this core, passed as a collaborator);
`rand` supplies the random draws of the dataframe path.  A lookup source
matching none of the three branches leaves `queries` unchanged. -/
def look_up_targets (queries : List Row) (targets : List Target)
    (lookup : LookupSource) (impute_mode : String)
    (add_fake_results : List Row → List Target → List Row)
    (rand : Nat → Nat) : Except LookupErr (List Row) :=
  match lookup with
  | LookupSource.none => Except.ok (add_fake_results queries targets)
  | LookupSource.callable f => lookupTargetsFromCallable queries targets f
  | LookupSource.table df =>
      lookupTargetsFromDataframe queries targets df impute_mode rand
  | LookupSource.other => Except.ok queries


/-- Indexing a mapped list. -/
theorem getq_map {α β : Type} (f : α → β) (l : List α) (i : Nat) :
    (l.map f).get? i = (l.get? i).map f := by
  induction l generalizing i with
  | nil => cases i <;> rfl
  | cons a l ih => cases i with
    | zero => rfl
    | succ n => exact ih n

/-- Indexing a zipped list. -/
theorem getq_zip {α β : Type} (as : List α) (bs : List β) (i : Nat) (a : α)
    (b : β) (ha : as.get? i = some a) (hb : bs.get? i = some b) :
    (as.zip bs).get? i = some (a, b) := by
  induction as generalizing bs i with
  | nil => cases i <;> simp_all
  | cons x xs ih =>
    cases bs with
    | nil => cases i <;> simp_all
    | cons y ys =>
      cases i with
      | zero =>
        simp only [List.get?] at ha hb
        cases ha
        cases hb
        rfl
      | succ n =>
        simp only [List.get?] at ha hb
        simpa [List.zip_cons_cons, List.get?] using ih ys n ha hb

/-- The replaced-cell map of `setCell` interacts with `find?` on the same
column name by rewriting the found pair's value. -/
theorem find?_setCell_map (r : Row) (c : String) (v : Value) :
    (r.map (fun p => if p.1 == c then (p.1, v) else p)).find?
        (fun p => p.1 == c)
      = (r.find? (fun p => p.1 == c)).map (fun p => (p.1, v)) := by
  induction r with
  | nil => rfl
  | cons hd tl ih =>
    by_cases h : hd.1 = c
    · simp [List.find?, h]
    · have hb : (hd.1 == c) = false := by simpa using h
      simp only [List.map_cons, List.find?]
      rw [if_neg (by simpa using h)]
      simp only [hb]
      exact ih

/-- The replaced-cell map of `setCell` leaves `find?` on any other column
name unchanged. -/
theorem find?_setCell_map_ne (r : Row) (c c' : String) (v : Value)
    (h : c' ≠ c) :
    (r.map (fun p => if p.1 == c then (p.1, v) else p)).find?
        (fun p => p.1 == c')
      = r.find? (fun p => p.1 == c') := by
  induction r with
  | nil => rfl
  | cons hd tl ih =>
    simp only [List.map_cons]
    by_cases hc : hd.1 = c
    · have hne : ¬hd.1 = c' := fun hcc => h (by rw [← hcc, hc])
      rw [if_pos (by simpa using hc)]
      rw [List.find?_cons_of_neg _ (by simpa using hne)]
      rw [List.find?_cons_of_neg _ (by simpa using hne)]
      exact ih
    · rw [if_neg (by simpa using hc)]
      by_cases hc' : hd.1 = c'
      · rw [List.find?_cons_of_pos _ (by simpa using hc')]
        rw [List.find?_cons_of_pos _ (by simpa using hc')]
      · rw [List.find?_cons_of_neg _ (by simpa using hc')]
        rw [List.find?_cons_of_neg _ (by simpa using hc')]
        exact ih

/-- Reading back the cell just set. -/
theorem getCell_setCell_self (r : Row) (c : String) (v : Value) :
    getCell (setCell r c v) c = v := by
  unfold setCell
  by_cases h : r.any (fun p => p.1 == c)
  · rw [if_pos h]
    unfold getCell
    rw [find?_setCell_map]
    obtain ⟨p, hp, hpc⟩ := List.any_eq_true.mp h
    have : (r.find? (fun p => p.1 == c)).isSome := by
      rw [List.find?_isSome]
      exact ⟨p, hp, hpc⟩
    obtain ⟨q, hq⟩ := Option.isSome_iff_exists.mp this
    rw [hq]
    rfl
  · rw [if_neg h]
    unfold getCell
    have hnone : r.find? (fun p => p.1 == c) = none := by
      rw [List.find?_eq_none]
      intro p hp
      intro hpc
      exact h (List.any_eq_true.mpr ⟨p, hp, hpc⟩)
    rw [List.find?_append, hnone]
    simp [List.find?]

/-- Setting one cell leaves every other column unchanged. -/
theorem getCell_setCell_ne (r : Row) (c c' : String) (v : Value)
    (h : c' ≠ c) : getCell (setCell r c v) c' = getCell r c' := by
  unfold setCell
  by_cases hany : r.any (fun p => p.1 == c)
  · rw [if_pos hany]
    unfold getCell
    rw [find?_setCell_map_ne r c c' v h]
  · rw [if_neg hany]
    unfold getCell
    rw [List.find?_append]
    cases hfind : r.find? (fun p => p.1 == c') with
    | some p => rfl
    | none =>
      have : ((c, v).1 == c') = false := by simpa using (fun hc => h hc.symm)
      simp [List.find?, this]

/-- Writing target columns leaves any column outside the written names
unchanged. -/
theorem getCell_writeTargets_not_mem (names : List String) (vals : List Value)
    (r : Row) (c : String) (h : c ∉ names) :
    getCell (writeTargets r names vals) c = getCell r c := by
  induction names generalizing vals r with
  | nil => rfl
  | cons n ns ih =>
    cases vals with
    | nil => rfl
    | cons v vs =>
      have hn : c ≠ n := fun hc => h (hc ▸ List.mem_cons_self n ns)
      have hns : c ∉ ns := fun hc => h (List.mem_cons_of_mem n hc)
      show getCell (writeTargets (setCell r n v) ns vs) c = getCell r c
      rw [ih vs (setCell r n v) hns]
      exact getCell_setCell_ne r n c v hn

/-- Writing per-name values `f` into the named target columns makes the cell
at any written name equal to its value `f`. -/
theorem getCell_writeTargets_map (names : List String) (f : String → Value)
    (r : Row) (c : String) (h : c ∈ names) :
    getCell (writeTargets r names (names.map f)) c = f c := by
  induction names generalizing r with
  | nil => cases h
  | cons n ns ih =>
    show getCell (writeTargets (setCell r n (f n)) ns (ns.map f)) c = f c
    by_cases hns : c ∈ ns
    · exact ih (setCell r n (f n)) hns
    · have hn : c = n := by
        rcases List.mem_cons.mp h with h1 | h1
        · exact h1
        · exact absurd h1 hns
      rw [getCell_writeTargets_not_mem ns (ns.map f) _ c hns]
      rw [hn]
      exact getCell_setCell_self r n (f n)

/-- The cell at a written name is one of the written values (when as many
values as names are supplied). -/
theorem getCell_writeTargets_mem (names : List String) (vals : List Value)
    (r : Row) (c : String) (h : c ∈ names) (hlen : names.length = vals.length) :
    getCell (writeTargets r names vals) c ∈ vals := by
  induction names generalizing vals r with
  | nil => cases h
  | cons n ns ih =>
    cases vals with
    | nil => cases hlen
    | cons v vs =>
      have hlen2 : ns.length = vs.length := by simpa using hlen
      show getCell (writeTargets (setCell r n v) ns vs) c ∈ v :: vs
      by_cases hns : c ∈ ns
      · exact List.mem_cons_of_mem v (ih vs (setCell r n v) hns hlen2)
      · have hn : c = n := by
          rcases List.mem_cons.mp h with h1 | h1
          · exact h1
          · exact absurd h1 hns
        rw [getCell_writeTargets_not_mem ns vs _ c hns, hn,
          getCell_setCell_self r n v]
        exact List.mem_cons_self v vs

/-- Membership in the match index list. -/
theorem mem_matchingIndices (q : Row) (lookup : List Row) (i : Nat) :
    i ∈ matchingIndices q lookup ↔
      i < lookup.length ∧ rowMatches q (lookup.getD i []) = true := by
  unfold matchingIndices
  rw [List.mem_filter, List.mem_range]

/-- A row with at least one table match never raises: only the no-match
branch of the loop of `_lookup_targets_from_dataframe` can raise. -/
theorem rowMatchVals_ok_of_matched (row : Row) (targets : List Target)
    (lookup : List Row) (impute_mode : String) (rnd : Nat)
    (h : matchingIndices row lookup ≠ []) :
    ∃ vs, rowMatchVals row targets lookup impute_mode rnd = Except.ok vs := by
  unfold rowMatchVals
  by_cases h1 : 1 < (matchingIndices row lookup).length
  · rw [if_pos h1]
    exact ⟨_, rfl⟩
  · rw [if_neg h1]
    have h0 : ¬(matchingIndices row lookup).length < 1 := by
      intro hlt
      exact h (List.length_eq_zero.mp (Nat.lt_one_iff.mp hlt))
    rw [if_neg h0]
    exact ⟨_, rfl⟩

/-- If every unmatched row makes the loop body raise `e`, then a query set
containing an unmatched row makes the whole resolution raise `e`. -/
theorem resolveRows_error_of_unmatched (targets : List Target)
    (lookup : List Row) (impute_mode : String) (e : LookupErr)
    (himp : ∀ row rnd, matchingIndices row lookup = [] →
      rowMatchVals row targets lookup impute_mode rnd = Except.error e)
    (rows : List Row) (rand : Nat → Nat)
    (h : ∃ row ∈ rows, matchingIndices row lookup = []) :
    resolveRows targets lookup impute_mode rand rows = Except.error e := by
  induction rows generalizing rand with
  | nil => obtain ⟨row, hmem, _⟩ := h; cases hmem
  | cons r rs ih =>
    show (match rowMatchVals r targets lookup impute_mode (rand 0) with
      | Except.error e => Except.error e
      | Except.ok vs =>
        match resolveRows targets lookup impute_mode (fun n => rand (n + 1)) rs with
        | Except.error e => Except.error e
        | Except.ok others => Except.ok (vs :: others)) = Except.error e
    by_cases hr : matchingIndices r lookup = []
    · rw [himp r (rand 0) hr]
    · obtain ⟨vs, hvs⟩ :=
        rowMatchVals_ok_of_matched r targets lookup impute_mode (rand 0) hr
      rw [hvs]
      have htail : ∃ row ∈ rs, matchingIndices row lookup = [] := by
        obtain ⟨row, hmem, hrow⟩ := h
        rcases List.mem_cons.mp hmem with h1 | h1
        · exact absurd (h1 ▸ hrow) hr
        · exact ⟨row, h1, hrow⟩
      rw [ih (fun n => rand (n + 1)) htail]

/-- Specification of a successful run of the row loop: one value list per
query row, each produced by the loop body on that row with its own random
draw. -/
theorem resolveRows_ok_spec (targets : List Target) (lookup : List Row)
    (impute_mode : String) (rows : List Row) (rand : Nat → Nat)
    (vals : List (List Value))
    (h : resolveRows targets lookup impute_mode rand rows = Except.ok vals) :
    vals.length = rows.length ∧
      ∀ i r, rows.get? i = some r → ∃ vs, vals.get? i = some vs ∧
        rowMatchVals r targets lookup impute_mode (rand i) = Except.ok vs := by
  induction rows generalizing rand vals with
  | nil =>
    cases h
    exact ⟨rfl, fun i r hr => by cases i <;> cases hr⟩
  | cons r rs ih =>
    have h2 : (match rowMatchVals r targets lookup impute_mode (rand 0) with
      | Except.error e => Except.error e
      | Except.ok vs =>
        match resolveRows targets lookup impute_mode (fun n => rand (n + 1)) rs with
        | Except.error e => Except.error e
        | Except.ok others => Except.ok (vs :: others)) = Except.ok vals := h
    cases hhead : rowMatchVals r targets lookup impute_mode (rand 0) with
    | error e => rw [hhead] at h2; cases h2
    | ok vs =>
      rw [hhead] at h2
      cases htail : resolveRows targets lookup impute_mode
          (fun n => rand (n + 1)) rs with
      | error e => rw [htail] at h2; cases h2
      | ok others =>
        rw [htail] at h2
        cases h2
        obtain ⟨hlen, hspec⟩ := ih (fun n => rand (n + 1)) others htail
        refine ⟨by simpa using hlen, fun i rr hr => ?_⟩
        cases i with
        | zero =>
          cases hr
          exact ⟨vs, rfl, hhead⟩
        | succ n =>
          obtain ⟨ws, hws, hrow⟩ := hspec n rr hr
          exact ⟨ws, hws, hrow⟩

/-- A raising row loop makes the dataframe lookup raise (before the final
bulk write). -/
theorem lookupTargetsFromDataframe_error (queries : List Row)
    (targets : List Target) (lookup : List Row) (impute_mode : String)
    (rand : Nat → Nat) (e : LookupErr)
    (h : resolveRows targets lookup impute_mode rand queries
      = Except.error e) :
    lookupTargetsFromDataframe queries targets lookup impute_mode rand
      = Except.error e := by
  unfold lookupTargetsFromDataframe
  rw [h]

/-- The loop body on an unmatched row: the `impute_mode == "ignore"` check
of lookup.py lines 106-111, then delegation to `_impute_lookup`. -/
theorem rowMatchVals_unmatched (row : Row) (targets : List Target)
    (lookup : List Row) (impute_mode : String) (rnd : Nat)
    (h : matchingIndices row lookup = []) :
    rowMatchVals row targets lookup impute_mode rnd
      = if impute_mode = "ignore" then Except.error LookupErr.invariantError
        else imputeLookup row lookup targets impute_mode rnd := by
  simp only [rowMatchVals, h, List.length_nil]
  norm_num

/-- C4: with `impute_mode = "ignore"`, a query row without a table match
makes the whole table-based resolution fail with the invariant-violation
error (the `AssertionError` of lookup.py line 107), without imputing and
without skipping the row. -/
theorem claim4_ignore_unmatched_fails (queries : List Row)
    (targets : List Target) (lookup : List Row)
    (add_fake_results : List Row → List Target → List Row) (rand : Nat → Nat)
    (h : ∃ row ∈ queries, matchingIndices row lookup = []) :
    look_up_targets queries targets (LookupSource.table lookup) "ignore"
        add_fake_results rand
      = Except.error LookupErr.invariantError := by
  show lookupTargetsFromDataframe queries targets lookup "ignore" rand = _
  apply lookupTargetsFromDataframe_error
  apply resolveRows_error_of_unmatched
  · intro row rnd hrow
    rw [rowMatchVals_unmatched row targets lookup "ignore" rnd hrow]
    rw [if_pos rfl]
  · exact h

/-- C4 witness: a concrete unmatched query under `impute_mode = "ignore"`. -/
theorem claim4_witness :
    look_up_targets [[("p", Value.num 2)]] [⟨"y", TargetMode.MAX, 0⟩]
        (LookupSource.table [[("p", Value.num 1), ("y", Value.num 5)]])
        "ignore" (fun q _ => q) (fun _ => 0)
      = Except.error LookupErr.invariantError :=
  claim4_ignore_unmatched_fails _ _ _ _ _
    ⟨[("p", Value.num 2)], by decide, by decide⟩

/-- C5: with `impute_mode = "error"`, a query row without a table match
makes the whole table-based resolution fail with the lookup-miss error (the
`IndexError` of lookup.py line 194); the raise happens inside the row loop,
before the single bulk write of line 121, so no target column of the query
set is mutated. -/
theorem claim5_error_mode_unmatched_fails (queries : List Row)
    (targets : List Target) (lookup : List Row)
    (add_fake_results : List Row → List Target → List Row) (rand : Nat → Nat)
    (h : ∃ row ∈ queries, matchingIndices row lookup = []) :
    look_up_targets queries targets (LookupSource.table lookup) "error"
        add_fake_results rand
      = Except.error LookupErr.missError := by
  show lookupTargetsFromDataframe queries targets lookup "error" rand = _
  apply lookupTargetsFromDataframe_error
  apply resolveRows_error_of_unmatched
  · intro row rnd hrow
    rw [rowMatchVals_unmatched row targets lookup "error" rnd hrow]
    rw [if_neg (by decide)]
    rfl
  · exact h

/-- C5 witness: a concrete unmatched query under `impute_mode = "error"`. -/
theorem claim5_witness :
    look_up_targets [[("p", Value.num 2)]] [⟨"y", TargetMode.MAX, 0⟩]
        (LookupSource.table [[("p", Value.num 1), ("y", Value.num 5)]])
        "error" (fun q _ => q) (fun _ => 0)
      = Except.error LookupErr.missError :=
  claim5_error_mode_unmatched_fails _ _ _ _ _
    ⟨[("p", Value.num 2)], by decide, by decide⟩

/-- C6 (amended): an unmatched query row under an impute-mode string that is
none of `mean`, `worst`, `best`, `random`, `ignore` makes table-based
resolution fail at the imputation step with the same lookup-miss error as
`impute_mode = "error"` (the final `else` of `_impute_lookup` is shared by
`"error"` and every unrecognized mode), not with the configuration error. -/
theorem claim6_unrecognized_mode_fails (queries : List Row)
    (targets : List Target) (lookup : List Row) (impute_mode : String)
    (add_fake_results : List Row → List Target → List Row) (rand : Nat → Nat)
    (h : ∃ row ∈ queries, matchingIndices row lookup = [])
    (h1 : impute_mode ≠ "mean") (h2 : impute_mode ≠ "worst")
    (h3 : impute_mode ≠ "best") (h4 : impute_mode ≠ "random")
    (h5 : impute_mode ≠ "ignore") :
    look_up_targets queries targets (LookupSource.table lookup) impute_mode
        add_fake_results rand
      = Except.error LookupErr.missError := by
  show lookupTargetsFromDataframe queries targets lookup impute_mode rand = _
  apply lookupTargetsFromDataframe_error
  apply resolveRows_error_of_unmatched
  · intro row rnd hrow
    rw [rowMatchVals_unmatched row targets lookup impute_mode rnd hrow]
    rw [if_neg h5]
    unfold imputeLookup
    rw [if_neg h1, if_neg h2, if_neg h3, if_neg h4]
  · exact h

/-- C6 witness: the unrecognized mode string `"bogus"` on an unmatched row. -/
theorem claim6_witness :
    look_up_targets [[("p", Value.num 2)]] [⟨"y", TargetMode.MAX, 0⟩]
        (LookupSource.table [[("p", Value.num 1), ("y", Value.num 5)]])
        "bogus" (fun q _ => q) (fun _ => 0)
      = Except.error LookupErr.missError :=
  claim6_unrecognized_mode_fails _ _ _ _ _ _
    ⟨[("p", Value.num 2)], by decide, by decide⟩
    (by decide) (by decide) (by decide) (by decide) (by decide)

/-- C6 counterexample: on a concrete unmatched row with the unrecognized
impute mode `"bogus"`, resolution does not fail with the configuration
error claimed (it fails with the lookup-miss error instead). -/
theorem claim6_counterexample :
    look_up_targets [[("p", Value.num 2)]] [⟨"y", TargetMode.MIN, 0⟩]
        (LookupSource.table [[("p", Value.num 1), ("y", Value.num 5)]])
        "bogus" (fun q _ => q) (fun _ => 0)
      ≠ Except.error LookupErr.configError := by
  intro hcontra
  have h : Except.error (α := List Row) LookupErr.missError
      = Except.error LookupErr.configError := hcontra
  injection h with h2
  exact LookupErr.noConfusion h2

/-- NaN on the right of the pandas comparison never equals anything,
including another NaN. -/
theorem valueEq_nan_right (x : Value) : valueEq x Value.nan = false := by
  cases x <;> rfl

/-- C9: a query row with a missing value in some parameter column matches no
reference-table row at all, since missing-value-aware equality never holds
against a missing query value. -/
theorem claim9_missing_value_matches_nothing (q : Row) (lookup : List Row)
    (c : String) (hc : (c, Value.nan) ∈ q) :
    matchingIndices q lookup = [] := by
  unfold matchingIndices
  rw [List.filter_eq_nil_iff]
  intro i _
  intro hmatch
  have hall := List.all_eq_true.mp hmatch (c, Value.nan) hc
  rw [valueEq_nan_right] at hall
  cases hall

/-- C9 witness: a query row with a missing parameter value matches nothing,
and in particular does not match a table row that is also missing there. -/
theorem claim9_witness :
    matchingIndices [("p", Value.nan)] [[("p", Value.nan)]] = [] :=
  claim9_missing_value_matches_nothing _ _ "p" (by decide)

/-- C8: code bug evidence. On a table whose cell values are not valid index
labels, `best`-mode imputation for a `MATCH` target does not return the
table value closest to the target's interval center (which would be `1`, at
distance `1` from the center `2`): the source computes that row via
`idxmin` but then evaluates
`lookup.loc[lookup.loc[idxmin_label,], target.name]`, which uses the chosen
row's cell values `5, 1` as row labels of a table whose index is `{0, 1}`,
raising a `KeyError`. -/
theorem claim8_best_match_target_raises :
    imputeLookup [("p", Value.num 7)]
        [[("p", Value.num 5), ("y", Value.num 1)],
         [("p", Value.num 6), ("y", Value.num 4)]]
        [⟨"y", TargetMode.MATCH, 2⟩] "best" 0
      = Except.error LookupErr.keyError := rfl

/-- C10: a lookup source that is neither `None`, nor callable, nor a
DataFrame falls through all three dispatch branches of `look_up_targets`:
the call returns normally and the query set is left completely unchanged. -/
theorem claim10_other_source_is_noop (queries : List Row)
    (targets : List Target) (impute_mode : String)
    (add_fake_results : List Row → List Target → List Row)
    (rand : Nat → Nat) :
    look_up_targets queries targets LookupSource.other impute_mode
        add_fake_results rand
      = Except.ok queries := rfl

/-- C2 counterexample: a reference table can itself carry a missing target
value; a query row whose unique match is such a table row is resolved
successfully, yet ends up with a missing (`NaN`) value in its target
column, so a successful call does not guarantee non-missing targets. -/
theorem claim2_counterexample :
    look_up_targets [[("p", Value.num 1)]] [⟨"y", TargetMode.MAX, 0⟩]
        (LookupSource.table [[("p", Value.num 1), ("y", Value.nan)]])
        "error" (fun q _ => q) (fun _ => 0)
      = Except.ok [[("p", Value.num 1), ("y", Value.nan)]] ∧
    getCell [("p", Value.num 1), ("y", Value.nan)] "y" = Value.nan :=
  ⟨rfl, rfl⟩

/-- C3 counterexample: a callable returning zero values per row against a
single target does not fail: the split frame then has no columns, so
`measured_targets` keeps its single tuple column and the count check
`shape[1] != len(targets)` compares `1 = 1`; resolution returns normally
and even writes the raw empty tuples into the target column. -/
theorem claim3_counterexample :
    lookupTargetsFromCallable [[("p", Value.num 1)]]
        [⟨"y", TargetMode.MAX, 0⟩] (fun _ => [])
      = Except.ok [[("p", Value.num 1), ("y", Value.emptyTup)]] := rfl

/-- The loop body on a row with exactly one match: copy that table row's
target values (lookup.py lines 114-116). -/
theorem rowMatchVals_single (row : Row) (targets : List Target)
    (lookup : List Row) (impute_mode : String) (rnd : Nat) (j : Nat)
    (h : matchingIndices row lookup = [j]) :
    rowMatchVals row targets lookup impute_mode rnd
      = Except.ok ((targets.map Target.name).map (dfCell lookup j)) := by
  simp only [rowMatchVals, h, List.length_cons, List.length_nil]
  norm_num

/-- C1: a query row with exactly one matching reference-table row receives
exactly that table row's value in every target column, identical to the
table's value, for every target in the target list. -/
theorem claim1_exact_match_copies_values (queries : List Row)
    (targets : List Target) (lookup : List Row) (impute_mode : String)
    (rand : Nat → Nat) (out : List Row)
    (hok : lookupTargetsFromDataframe queries targets lookup impute_mode rand
      = Except.ok out)
    (i : Nat) (qrow orow : Row) (j : Nat)
    (hq : queries.get? i = some qrow)
    (hone : matchingIndices qrow lookup = [j])
    (ho : out.get? i = some orow) :
    ∀ t ∈ targets, getCell orow t.name = dfCell lookup j t.name := by
  unfold lookupTargetsFromDataframe at hok
  cases hres : resolveRows targets lookup impute_mode rand queries with
  | error e => rw [hres] at hok; cases hok
  | ok allVals =>
    rw [hres] at hok
    cases hok
    obtain ⟨hlen, hspec⟩ :=
      resolveRows_ok_spec targets lookup impute_mode queries rand allVals hres
    obtain ⟨vs, hvs, hrow⟩ := hspec i qrow hq
    rw [rowMatchVals_single qrow targets lookup impute_mode (rand i) j hone]
      at hrow
    have hvs2 : allVals.get? i
        = some ((targets.map Target.name).map (dfCell lookup j)) := by
      rw [hvs]
      exact congrArg some (Except.ok.inj hrow).symm
    have hzip := getq_zip queries allVals i qrow _ hq hvs2
    have ho2 : ((queries.zip allVals).map (fun p =>
        writeTargets p.1 (targets.map Target.name) p.2)).get? i
        = some (writeTargets qrow (targets.map Target.name)
            ((targets.map Target.name).map (dfCell lookup j))) := by
      rw [getq_map, hzip]
      rfl
    rw [ho2] at ho
    have horow := Option.some.inj ho
    intro t ht
    rw [← horow]
    exact getCell_writeTargets_map (targets.map Target.name)
      (dfCell lookup j) qrow t.name (List.mem_map_of_mem Target.name ht)

/-- C1 witness: a concrete uniquely-matched query row receives the table
value of its single match. -/
theorem claim1_witness :
    getCell [("p", Value.num 1), ("y", Value.num 5)] "y"
      = dfCell [[("p", Value.num 1), ("y", Value.num 5)]] 0 "y" :=
  claim1_exact_match_copies_values
    [[("p", Value.num 1)]] [⟨"y", TargetMode.MAX, 0⟩]
    [[("p", Value.num 1), ("y", Value.num 5)]] "error" (fun _ => 0)
    [[("p", Value.num 1), ("y", Value.num 5)]] rfl
    0 [("p", Value.num 1)] [("p", Value.num 1), ("y", Value.num 5)] 0
    rfl (by decide) rfl
    ⟨"y", TargetMode.MAX, 0⟩ (List.mem_cons_self _ _)

/-- C7: `mean`-mode imputation returns, for each target position, the
arithmetic mean of that target's table column, independent of the query
row, of the random draw and of the target's mode (the same value list is
produced for any two query rows and draws, and the targets' modes are
unconstrained). -/
theorem claim7_mean_is_column_mean (row row2 : Row) (lookup : List Row)
    (targets : List Target) (rnd rnd2 : Nat) (k : Nat) (t : Target)
    (ht : targets.get? k = some t) (xs : List ℚ)
    (hcol : lookup.map (fun tr => getCell tr t.name) = xs.map Value.num)
    (hne : xs ≠ []) :
    ∃ vals, imputeLookup row lookup targets "mean" rnd = Except.ok vals ∧
      vals.get? k = some (Value.num (xs.sum / xs.length)) ∧
      imputeLookup row2 lookup targets "mean" rnd2 = Except.ok vals := by
  have hmean : ∀ (r : Row) (n : Nat), imputeLookup r lookup targets "mean" n
      = Except.ok (targets.map (fun s => colMean lookup s.name)) := by
    intro r n
    unfold imputeLookup
    rw [if_pos rfl]
  refine ⟨targets.map (fun s => colMean lookup s.name), hmean row rnd, ?_,
    hmean row2 rnd2⟩
  rw [getq_map, ht]
  have hcv : colVals lookup t.name = xs := by
    unfold colVals
    rw [hcol, List.filterMap_map]
    have : toNum ∘ Value.num = some := rfl
    rw [this, List.filterMap_some]
  show some (colMean lookup t.name) = _
  unfold colMean
  rw [hcv]
  cases xs with
  | nil => exact absurd rfl hne
  | cons x xs2 => rfl

/-- C7 witness: the mean `(2 + 4) / 2` is imputed for two different query
rows and random draws, with the same resulting value list. -/
theorem claim7_witness :
    ∃ vals, imputeLookup [("p", Value.num 9)]
        [[("y", Value.num 2)], [("y", Value.num 4)]]
        [⟨"y", TargetMode.MAX, 0⟩] "mean" 0 = Except.ok vals ∧
      vals.get? 0 = some (Value.num (([2, 4] : List ℚ).sum
        / ([2, 4] : List ℚ).length)) ∧
      imputeLookup [("p", Value.num 100)]
        [[("y", Value.num 2)], [("y", Value.num 4)]]
        [⟨"y", TargetMode.MAX, 0⟩] "mean" 7 = Except.ok vals :=
  claim7_mean_is_column_mean [("p", Value.num 9)] [("p", Value.num 100)]
    [[("y", Value.num 2)], [("y", Value.num 4)]]
    [⟨"y", TargetMode.MAX, 0⟩] 0 7 0 ⟨"y", TargetMode.MAX, 0⟩ rfl
    [2, 4] rfl (by decide)

/-- Folding `max` over a list of equal lengths. -/
theorem foldl_max_all_eq {k : Nat} (l : List (List Value)) :
    ∀ a : Nat, l ≠ [] → (∀ vs ∈ l, vs.length = k) →
      l.foldl (fun m vs => max m vs.length) a = max a k := by
  induction l with
  | nil => intro a h _; exact absurd rfl h
  | cons r rs ih =>
    intro a _ hall
    have hr : r.length = k := hall r (List.mem_cons_self r rs)
    show rs.foldl (fun m vs => max m vs.length) (max a r.length) = max a k
    cases rs with
    | nil => rw [hr]; rfl
    | cons r2 rs2 =>
      rw [ih (max a r.length) (by simp)
        (fun vs h => hall vs (List.mem_cons_of_mem r h))]
      rw [hr, Nat.max_assoc, Nat.max_self]

/-- C3 (amended): a callable that returns `k ≥ 1` values per row, with `k`
different from the number of targets, makes resolution fail with the
configuration error (the `AssertionError` of lookup.py line 74), before any
target column of the query set is written; for `k = 0` the column count
compared is `1`, not `0` (see the counterexample). -/
theorem claim3_callable_mismatch_fails (queries : List Row)
    (targets : List Target) (f : List Value → List Value) (k : Nat)
    (hq : queries ≠ [])
    (hk : ∀ r ∈ queries, (f (r.map Prod.snd)).length = k)
    (h1 : 1 ≤ k) (hne : k ≠ targets.length) :
    lookupTargetsFromCallable queries targets f
      = Except.error LookupErr.configError := by
  have hres : ∀ vs ∈ queries.map (fun r => f (r.map Prod.snd)),
      vs.length = k := by
    intro vs hvs
    obtain ⟨r, hr, hfr⟩ := List.mem_map.mp hvs
    rw [← hfr]
    exact hk r hr
  have hne2 : queries.map (fun r => f (r.map Prod.snd)) ≠ [] := by
    simpa using hq
  have hfold := foldl_max_all_eq (queries.map (fun r => f (r.map Prod.snd)))
    0 hne2 hres
  simp only [lookupTargetsFromCallable]
  rw [hfold, Nat.zero_max, Nat.max_eq_left h1, if_pos hne]

/-- C3 witness: a callable returning one value per row against two targets
fails with the configuration error. -/
theorem claim3_witness :
    lookupTargetsFromCallable [[("p", Value.num 1)]]
        [⟨"a", TargetMode.MAX, 0⟩, ⟨"b", TargetMode.MIN, 0⟩]
        (fun _ => [Value.num 3])
      = Except.error LookupErr.configError :=
  claim3_callable_mismatch_fails _ _ _ 1 (by decide)
    (fun r _ => rfl) (by decide) (by decide)

/-- An in-bounds `getD` is a member. -/
theorem getD_mem_of_lt {α : Type} (l : List α) (n : Nat) (d : α)
    (h : n < l.length) : l.getD n d ∈ l := by
  rw [List.getD_eq_getElem l d h]
  exact List.getElem_mem h

/-- A non-empty table whose column is everywhere numeric has a non-empty
numeric column value list. -/
theorem colVals_ne_nil (lookup : List Row) (c : String)
    (h : ∀ tr ∈ lookup, ∃ q, getCell tr c = Value.num q)
    (hne : lookup ≠ []) : colVals lookup c ≠ [] := by
  cases lookup with
  | nil => exact absurd rfl hne
  | cons r rs =>
    obtain ⟨q, hq⟩ := h r (List.mem_cons_self r rs)
    unfold colVals
    rw [List.map_cons, List.filterMap_cons, hq]
    exact List.cons_ne_nil _ _

/-- Column mean of an everywhere-numeric non-empty column is numeric. -/
theorem colMean_num (lookup : List Row) (c : String)
    (h : ∀ tr ∈ lookup, ∃ q, getCell tr c = Value.num q)
    (hne : lookup ≠ []) : ∃ m, colMean lookup c = Value.num m := by
  unfold colMean
  cases hcv : colVals lookup c with
  | nil => exact absurd hcv (colVals_ne_nil lookup c h hne)
  | cons x xs => exact ⟨_, rfl⟩

/-- Column minimum of an everywhere-numeric non-empty column is numeric. -/
theorem colMin_num (lookup : List Row) (c : String)
    (h : ∀ tr ∈ lookup, ∃ q, getCell tr c = Value.num q)
    (hne : lookup ≠ []) : ∃ m, colMin lookup c = Value.num m := by
  unfold colMin
  cases hcv : colVals lookup c with
  | nil => exact absurd hcv (colVals_ne_nil lookup c h hne)
  | cons x xs => exact ⟨_, rfl⟩

/-- Column maximum of an everywhere-numeric non-empty column is numeric. -/
theorem colMax_num (lookup : List Row) (c : String)
    (h : ∀ tr ∈ lookup, ∃ q, getCell tr c = Value.num q)
    (hne : lookup ≠ []) : ∃ m, colMax lookup c = Value.num m := by
  unfold colMax
  cases hcv : colVals lookup c with
  | nil => exact absurd hcv (colVals_ne_nil lookup c h hne)
  | cons x xs => exact ⟨_, rfl⟩

/-- A successful best/worst loop over an everywhere-numeric non-empty table
yields one numeric value per target. -/
theorem bestWorstVals_ok_num (lookup : List Row) (worst : Bool)
    (targets : List Target)
    (h : ∀ tr ∈ lookup, ∀ t ∈ targets, ∃ q, getCell tr t.name = Value.num q)
    (hne : lookup ≠ []) (vs : List Value)
    (hok : bestWorstVals lookup worst targets = Except.ok vs) :
    vs.length = targets.length ∧ ∀ v ∈ vs, ∃ q, v = Value.num q := by
  induction targets generalizing vs with
  | nil =>
    cases hok
    exact ⟨rfl, fun v hv => absurd hv (List.not_mem_nil v)⟩
  | cons t ts ih =>
    have hok2 : (match bestWorstVal lookup t worst with
      | Except.error e => Except.error e
      | Except.ok v =>
        match bestWorstVals lookup worst ts with
        | Except.error e => Except.error e
        | Except.ok vs => Except.ok (v :: vs)) = Except.ok vs := hok
    cases hhead : bestWorstVal lookup t worst with
    | error e => rw [hhead] at hok2; cases hok2
    | ok v =>
      rw [hhead] at hok2
      cases htail : bestWorstVals lookup worst ts with
      | error e => rw [htail] at hok2; cases hok2
      | ok rest =>
        rw [htail] at hok2
        cases hok2
        have hcol : ∀ tr ∈ lookup, ∃ q, getCell tr t.name = Value.num q :=
          fun tr htr => h tr htr t (List.mem_cons_self t ts)
        have hv : ∃ q, v = Value.num q := by
          unfold bestWorstVal at hhead
          cases hmode : t.mode with
          | MAX =>
            rw [hmode] at hhead
            cases hw : worst with
            | true =>
              rw [hw] at hhead
              obtain ⟨m, hm⟩ := colMin_num lookup t.name hcol hne
              exact ⟨m, by rw [← Except.ok.inj hhead, if_pos rfl, hm]⟩
            | false =>
              rw [hw] at hhead
              obtain ⟨m, hm⟩ := colMax_num lookup t.name hcol hne
              exact ⟨m, by rw [← Except.ok.inj hhead]; simpa using hm⟩
          | MIN =>
            rw [hmode] at hhead
            cases hw : worst with
            | true =>
              rw [hw] at hhead
              obtain ⟨m, hm⟩ := colMax_num lookup t.name hcol hne
              exact ⟨m, by rw [← Except.ok.inj hhead, if_pos rfl, hm]⟩
            | false =>
              rw [hw] at hhead
              obtain ⟨m, hm⟩ := colMin_num lookup t.name hcol hne
              exact ⟨m, by rw [← Except.ok.inj hhead]; simpa using hm⟩
          | MATCH =>
            rw [hmode] at hhead
            have hhead2 : (if lookup.isEmpty then
                Except.error (α := Value) LookupErr.valueError
              else Except.error LookupErr.keyError) = Except.ok v := hhead
            split at hhead2 <;> cases hhead2
        obtain ⟨hlen, hall⟩ := ih
          (fun tr htr u hu => h tr htr u (List.mem_cons_of_mem t hu)) rest htail
        refine ⟨by simpa using hlen, fun w hw => ?_⟩
        rcases List.mem_cons.mp hw with h1 | h1
        · exact h1 ▸ hv
        · exact hall w h1

/-- A successful imputation over an everywhere-numeric non-empty table
yields one numeric value per target, whatever the mode and the query row. -/
theorem imputeLookup_ok_num (row : Row) (lookup : List Row)
    (targets : List Target) (mode : String) (rnd : Nat)
    (h : ∀ tr ∈ lookup, ∀ t ∈ targets, ∃ q, getCell tr t.name = Value.num q)
    (hne : lookup ≠ []) (vs : List Value)
    (hok : imputeLookup row lookup targets mode rnd = Except.ok vs) :
    vs.length = targets.length ∧ ∀ v ∈ vs, ∃ q, v = Value.num q := by
  unfold imputeLookup at hok
  by_cases h1 : mode = "mean"
  · rw [if_pos h1] at hok
    have hvs := Except.ok.inj hok
    subst hvs
    refine ⟨by simp, fun v hv => ?_⟩
    obtain ⟨t, ht, hveq⟩ := List.mem_map.mp hv
    obtain ⟨m, hm⟩ := colMean_num lookup t.name
      (fun tr htr => h tr htr t ht) hne
    exact ⟨m, by rw [← hveq, hm]⟩
  · rw [if_neg h1] at hok
    by_cases h2 : mode = "worst"
    · rw [if_pos h2] at hok
      exact bestWorstVals_ok_num lookup true targets h hne vs hok
    · rw [if_neg h2] at hok
      by_cases h3 : mode = "best"
      · rw [if_pos h3] at hok
        exact bestWorstVals_ok_num lookup false targets h hne vs hok
      · rw [if_neg h3] at hok
        by_cases h4 : mode = "random"
        · rw [if_pos h4] at hok
          have hemp : lookup.isEmpty = false := by
            cases lookup with
            | nil => exact absurd rfl hne
            | cons a l => rfl
          rw [if_neg (by simp [hemp])] at hok
          have hvs := Except.ok.inj hok
          subst hvs
          refine ⟨by simp, fun v hv => ?_⟩
          obtain ⟨t, ht, hveq⟩ := List.mem_map.mp hv
          have hlt : rnd % lookup.length < lookup.length :=
            Nat.mod_lt _ (List.length_pos.mpr hne)
          obtain ⟨q, hq⟩ := h (lookup.getD (rnd % lookup.length) [])
            (getD_mem_of_lt lookup _ [] hlt) t ht
          exact ⟨q, by rw [← hveq]; exact hq⟩
        · rw [if_neg h4] at hok
          cases hok

/-- A successful loop body over an everywhere-numeric non-empty table yields
one numeric value per target, in all three match-count branches. -/
theorem rowMatchVals_ok_num (row : Row) (targets : List Target)
    (lookup : List Row) (impute_mode : String) (rnd : Nat)
    (h : ∀ tr ∈ lookup, ∀ t ∈ targets, ∃ q, getCell tr t.name = Value.num q)
    (hne : lookup ≠ []) (vs : List Value)
    (hok : rowMatchVals row targets lookup impute_mode rnd = Except.ok vs) :
    vs.length = targets.length ∧ ∀ v ∈ vs, ∃ q, v = Value.num q := by
  simp only [rowMatchVals] at hok
  by_cases hm : 1 < (matchingIndices row lookup).length
  · rw [if_pos hm] at hok
    have hvs := Except.ok.inj hok
    subst hvs
    refine ⟨by simp, fun v hv => ?_⟩
    obtain ⟨n, hn, hveq⟩ := List.mem_map.mp hv
    obtain ⟨t, ht, hteq⟩ := List.mem_map.mp hn
    have hlen0 : 0 < (matchingIndices row lookup).length :=
      Nat.lt_trans Nat.zero_lt_one hm
    have hjmem : (matchingIndices row lookup).getD
        (rnd % (matchingIndices row lookup).length) 0
        ∈ matchingIndices row lookup :=
      getD_mem_of_lt _ _ 0 (Nat.mod_lt _ hlen0)
    have hjlt := ((mem_matchingIndices row lookup _).mp hjmem).1
    obtain ⟨q, hq⟩ := h (lookup.getD _ [])
      (getD_mem_of_lt lookup _ [] hjlt) t ht
    exact ⟨q, by rw [← hveq, ← hteq]; exact hq⟩
  · rw [if_neg hm] at hok
    by_cases hz : (matchingIndices row lookup).length < 1
    · rw [if_pos hz] at hok
      by_cases hig : impute_mode = "ignore"
      · rw [if_pos hig] at hok
        cases hok
      · rw [if_neg hig] at hok
        exact imputeLookup_ok_num row lookup targets impute_mode rnd
          h hne vs hok
    · rw [if_neg hz] at hok
      have hvs := Except.ok.inj hok
      subst hvs
      refine ⟨by simp, fun v hv => ?_⟩
      obtain ⟨n, hn, hveq⟩ := List.mem_map.mp hv
      obtain ⟨t, ht, hteq⟩ := List.mem_map.mp hn
      have hlen0 : 0 < (matchingIndices row lookup).length :=
        Nat.lt_of_lt_of_le Nat.zero_lt_one (Nat.le_of_not_lt hz)
      have hjmem : (matchingIndices row lookup).getD 0 0
          ∈ matchingIndices row lookup :=
        getD_mem_of_lt _ _ 0 hlen0
      have hjlt := ((mem_matchingIndices row lookup _).mp hjmem).1
      obtain ⟨q, hq⟩ := h (lookup.getD _ [])
        (getD_mem_of_lt lookup _ [] hjlt) t ht
      exact ⟨q, by rw [← hveq, ← hteq]; exact hq⟩

/-- Setting a cell makes its column present in the row. -/
theorem any_setCell_self (r : Row) (c : String) (v : Value) :
    (setCell r c v).any (fun p => p.1 == c) = true := by
  unfold setCell
  by_cases h : r.any (fun p => p.1 == c)
  · rw [if_pos h]
    obtain ⟨p, hp, hpc⟩ := List.any_eq_true.mp h
    apply List.any_eq_true.mpr
    exact ⟨(p.1, v), List.mem_map.mpr ⟨p, hp, by rw [if_pos hpc]⟩, hpc⟩
  · rw [if_neg h]
    apply List.any_eq_true.mpr
    exact ⟨(c, v), List.mem_append_right _ (List.mem_singleton.mpr rfl),
      by simp⟩

/-- Setting a cell never removes a column from the row. -/
theorem any_setCell_mono (r : Row) (c c' : String) (v : Value)
    (h : r.any (fun p => p.1 == c') = true) :
    (setCell r c v).any (fun p => p.1 == c') = true := by
  unfold setCell
  obtain ⟨p, hp, hpc⟩ := List.any_eq_true.mp h
  by_cases hany : r.any (fun p => p.1 == c)
  · rw [if_pos hany]
    apply List.any_eq_true.mpr
    by_cases hpc2 : (p.1 == c) = true
    · exact ⟨(p.1, v), List.mem_map.mpr ⟨p, hp, by rw [if_pos hpc2]⟩, hpc⟩
    · exact ⟨p, List.mem_map.mpr ⟨p, hp, by rw [if_neg hpc2]⟩, hpc⟩
  · rw [if_neg hany]
    exact List.any_eq_true.mpr ⟨p, List.mem_append_left _ hp, hpc⟩

/-- Writing target columns never removes a column from the row. -/
theorem any_writeTargets_mono (names : List String) (vals : List Value)
    (r : Row) (c : String) (h : r.any (fun p => p.1 == c) = true) :
    (writeTargets r names vals).any (fun p => p.1 == c) = true := by
  induction names generalizing vals r with
  | nil => exact h
  | cons n ns ih =>
    cases vals with
    | nil => exact h
    | cons v vs => exact ih vs (setCell r n v) (any_setCell_mono r n c v h)

/-- After writing one value per name, every written name is a column of the
row: the row is fully filled. -/
theorem any_writeTargets_of_mem (names : List String) (vals : List Value)
    (r : Row) (c : String) (hmem : c ∈ names)
    (hlen : names.length = vals.length) :
    (writeTargets r names vals).any (fun p => p.1 == c) = true := by
  induction names generalizing vals r with
  | nil => cases hmem
  | cons n ns ih =>
    cases vals with
    | nil => cases hlen
    | cons v vs =>
      by_cases hns : c ∈ ns
      · exact ih vs (setCell r n v) hns (by simpa using hlen)
      · have hcn : c = n := by
          rcases List.mem_cons.mp hmem with h1 | h1
          · exact h1
          · exact absurd h1 hns
        show (writeTargets (setCell r n v) ns vs).any
          (fun p => p.1 == c) = true
        apply any_writeTargets_mono
        rw [hcn]
        exact any_setCell_self r n v

/-- A successful best/worst loop yields one value per target (with no
assumption on the table contents). -/
theorem bestWorstVals_ok_length (lookup : List Row) (worst : Bool)
    (targets : List Target) (vs : List Value)
    (hok : bestWorstVals lookup worst targets = Except.ok vs) :
    vs.length = targets.length := by
  induction targets generalizing vs with
  | nil => cases hok; rfl
  | cons t ts ih =>
    have hok2 : (match bestWorstVal lookup t worst with
      | Except.error e => Except.error e
      | Except.ok v =>
        match bestWorstVals lookup worst ts with
        | Except.error e => Except.error e
        | Except.ok vs => Except.ok (v :: vs)) = Except.ok vs := hok
    cases hhead : bestWorstVal lookup t worst with
    | error e => rw [hhead] at hok2; cases hok2
    | ok v =>
      rw [hhead] at hok2
      cases htail : bestWorstVals lookup worst ts with
      | error e => rw [htail] at hok2; cases hok2
      | ok rest =>
        rw [htail] at hok2
        cases hok2
        simpa using ih rest htail

/-- A successful imputation yields one value per target (with no assumption
on the table contents). -/
theorem imputeLookup_ok_length (row : Row) (lookup : List Row)
    (targets : List Target) (mode : String) (rnd : Nat) (vs : List Value)
    (hok : imputeLookup row lookup targets mode rnd = Except.ok vs) :
    vs.length = targets.length := by
  unfold imputeLookup at hok
  by_cases h1 : mode = "mean"
  · rw [if_pos h1] at hok
    rw [← Except.ok.inj hok]
    simp
  · rw [if_neg h1] at hok
    by_cases h2 : mode = "worst"
    · rw [if_pos h2] at hok
      exact bestWorstVals_ok_length lookup true targets vs hok
    · rw [if_neg h2] at hok
      by_cases h3 : mode = "best"
      · rw [if_pos h3] at hok
        exact bestWorstVals_ok_length lookup false targets vs hok
      · rw [if_neg h3] at hok
        by_cases h4 : mode = "random"
        · rw [if_pos h4] at hok
          split at hok
          · cases hok
          · rw [← Except.ok.inj hok]
            simp
        · rw [if_neg h4] at hok
          cases hok

/-- A successful loop body yields one value per target in every branch (with
no assumption on the table contents). -/
theorem rowMatchVals_ok_length (row : Row) (targets : List Target)
    (lookup : List Row) (impute_mode : String) (rnd : Nat) (vs : List Value)
    (hok : rowMatchVals row targets lookup impute_mode rnd = Except.ok vs) :
    vs.length = targets.length := by
  simp only [rowMatchVals] at hok
  by_cases hm : 1 < (matchingIndices row lookup).length
  · rw [if_pos hm] at hok
    rw [← Except.ok.inj hok]
    simp
  · rw [if_neg hm] at hok
    by_cases hz : (matchingIndices row lookup).length < 1
    · rw [if_pos hz] at hok
      by_cases hig : impute_mode = "ignore"
      · rw [if_pos hig] at hok
        cases hok
      · rw [if_neg hig] at hok
        exact imputeLookup_ok_length row lookup targets impute_mode rnd vs hok
    · rw [if_neg hz] at hok
      rw [← Except.ok.inj hok]
      simp

/-- C2 (amended): resolution with a reference-table source is all-or-nothing,
unconditionally.  Either the call fails — and, since every raise of the
source occurs inside the row loop before the single bulk write of lookup.py
line 121, no target column of the query set has been written — or it
succeeds and then every query row of the output carries a column for every
target name: the query set is never left partially filled.  Additionally,
the written values are non-missing (numeric) provided the reference table
is non-empty and carries a numeric value for every target name in every
row; this proviso scopes only the non-missingness guarantee (the unamended
claim fails when the table itself holds a missing target value, see the
counterexample). -/
theorem claim2_all_or_nothing (queries : List Row) (targets : List Target)
    (lookup : List Row) (impute_mode : String)
    (add_fake_results : List Row → List Target → List Row)
    (rand : Nat → Nat) :
    (∃ e, look_up_targets queries targets (LookupSource.table lookup)
      impute_mode add_fake_results rand = Except.error e) ∨
    (∃ out, look_up_targets queries targets (LookupSource.table lookup)
        impute_mode add_fake_results rand = Except.ok out ∧
      out.length = queries.length ∧
      (∀ i orow, out.get? i = some orow →
        ∀ t ∈ targets, orow.any (fun p => p.1 == t.name) = true) ∧
      ((∀ tr ∈ lookup, ∀ t ∈ targets, ∃ q, getCell tr t.name = Value.num q) →
        lookup ≠ [] →
        ∀ i orow, out.get? i = some orow →
          ∀ t ∈ targets, ∃ q, getCell orow t.name = Value.num q)) := by
  cases hres : resolveRows targets lookup impute_mode rand queries with
  | error e =>
    left
    exact ⟨e, lookupTargetsFromDataframe_error queries targets lookup
      impute_mode rand e hres⟩
  | ok allVals =>
    right
    obtain ⟨hlen, hspec⟩ :=
      resolveRows_ok_spec targets lookup impute_mode queries rand allVals hres
    refine ⟨(queries.zip allVals).map (fun p =>
      writeTargets p.1 (targets.map Target.name) p.2), ?_, ?_, ?_, ?_⟩
    · show lookupTargetsFromDataframe queries targets lookup impute_mode rand
        = _
      unfold lookupTargetsFromDataframe
      rw [hres]
    · rw [List.length_map, List.length_zip, hlen, Nat.min_self]
    · intro i orow ho t ht
      rw [getq_map] at ho
      obtain ⟨p, hp, hfp⟩ := Option.map_eq_some'.mp ho
      obtain ⟨hq1, hq2⟩ := (List.get?_zip_eq_some queries allVals p i).mp hp
      obtain ⟨vs, hvs, hrow⟩ := hspec i p.1 hq1
      rw [hq2] at hvs
      have hpvs : p.2 = vs := Option.some.inj hvs
      have hvlen := rowMatchVals_ok_length p.1 targets lookup impute_mode
        (rand i) vs hrow
      rw [← hfp, hpvs]
      exact any_writeTargets_of_mem (targets.map Target.name) vs p.1 t.name
        (List.mem_map_of_mem Target.name ht) (by rw [List.length_map, hvlen])
    · intro H1 H2 i orow ho t ht
      rw [getq_map] at ho
      obtain ⟨p, hp, hfp⟩ := Option.map_eq_some'.mp ho
      obtain ⟨hq1, hq2⟩ := (List.get?_zip_eq_some queries allVals p i).mp hp
      obtain ⟨vs, hvs, hrow⟩ := hspec i p.1 hq1
      rw [hq2] at hvs
      have hpvs : p.2 = vs := Option.some.inj hvs
      obtain ⟨hvlen, hvnum⟩ := rowMatchVals_ok_num p.1 targets lookup
        impute_mode (rand i) H1 H2 vs hrow
      have hmemname : t.name ∈ targets.map Target.name :=
        List.mem_map_of_mem Target.name ht
      have hlen2 : (targets.map Target.name).length = vs.length := by
        rw [List.length_map, hvlen]
      have hcellmem := getCell_writeTargets_mem (targets.map Target.name)
        vs p.1 t.name hmemname hlen2
      obtain ⟨q, hq⟩ := hvnum _ hcellmem
      refine ⟨q, ?_⟩
      rw [← hfp, hpvs]
      exact hq

end Baybe
